import Mathlib

/-!
Verification of the E2E Networks LLM wrapper (`src/llm_wrapper.py`, `src/app.py`).

The development shallowly embeds the wrapper's pure logic:
* parsed JSON values (`Json`) with Python's `str()` / `repr()` rendering,
* Python's fallible `in` membership test and `[]` subscript on such values,
* `E2ENetworksLLM._extract_generated_text` (response normalizer),
* `E2ENetworksLLM._build_payload` (configuration resolver),
* `E2ENetworksLLM._call` (remote call adapter, transport outcome abstracted),
* `E2ENetworksLLM._generate` (batch generation),
* the constructor's credential resolution logic.
-/

/-- A parsed JSON value, as produced by `response.json()`.  Numbers are
modelled as rationals (Python ints are the `den = 1` case; no claim depends
on float-specific behaviour). -/
inductive Json where
  | null : Json
  | bool (b : Bool) : Json
  | num (q : ℚ) : Json
  | str (s : String) : Json
  | arr (xs : List Json) : Json
  | obj (fields : List (String × Json)) : Json

/-- Python dict lookup on an object's field list (first binding wins; JSON
objects parsed by `json` have distinct keys). -/
def lookupKey (k : String) : List (String × Json) → Option Json
  | [] => none
  | kv :: rest => if kv.1 = k then some kv.2 else lookupKey k rest

mutual
/-- Python `repr()` of a parsed JSON value: dicts render as
`\x7b'k': v, ...\x7d`, strings with surrounding single quotes, `None`,
`True`/`False`.  Integral numbers render as their integer; the rendering of
non-integral floats is approximated (no claim depends on it). -/
def pyRepr : Json → String
  | .null => "None"
  | .bool true => "True"
  | .bool false => "False"
  | .num q => if q.den = 1 then toString q.num else toString q
  | .str s => "\x27" ++ s ++ "\x27"
  | .arr xs => "[" ++ String.intercalate ", " (pyReprList xs) ++ "]"
  | .obj fs => "\x7b" ++ String.intercalate ", " (pyReprFields fs) ++ "\x7d"

def pyReprList : List Json → List String
  | [] => []
  | x :: xs => pyRepr x :: pyReprList xs

def pyReprFields : List (String × Json) → List String
  | [] => []
  | kv :: fs => ("\x27" ++ kv.1 ++ "\x27: " ++ pyRepr kv.2) :: pyReprFields fs
end

/-- Python `str()` of a parsed JSON value: the string itself for strings,
`repr` for everything else (so `str()` of a dict is its `repr`). -/
def pyStr : Json → String
  | .str s => s
  | v => pyRepr v

/-- `needle` occurs as a contiguous substring of `hay` (Python `in` on
strings); the empty needle occurs in everything. -/
def charsContains (n : List Char) : List Char → Bool
  | [] => n.isEmpty
  | c :: h => n.isPrefixOf (c :: h) || charsContains n h

/-- Exceptions the embedded fragments can raise. -/
inductive PyErr where
  | typeError (msg : String) : PyErr
  | keyError (key : String) : PyErr
deriving DecidableEq

/-- Python `key in v` on a parsed JSON value: key membership for dicts,
`==`-membership for lists (a `str` equals only an equal `str`), substring
test for strings, and a `TypeError` for `None`, booleans and numbers. -/
def pyIn (key : String) : Json → Except PyErr Bool
  | .obj fs => .ok (lookupKey key fs).isSome
  | .arr xs => .ok (xs.any fun j => match j with | .str t => key = t | _ => false)
  | .str t => .ok (charsContains key.data t.data)
  | .null => .error (.typeError "argument of type \x27NoneType\x27 is not iterable")
  | .bool _ => .error (.typeError "argument of type \x27bool\x27 is not iterable")
  | .num _ => .error (.typeError "argument of type \x27int\x27 is not iterable")

/-- Python `v[key]` with a string key: dict lookup (a `KeyError` when the
key is missing), a `TypeError` on every other value. -/
def pySubscript (v : Json) (key : String) : Except PyErr Json :=
  match v with
  | .obj fs =>
    match lookupKey key fs with
    | some j => .ok j
    | none => .error (.keyError key)
  | .str _ => .error (.typeError "string indices must be integers")
  | .arr _ => .error (.typeError "list indices must be integers or slices, not str")
  | .null => .error (.typeError "\x27NoneType\x27 object is not subscriptable")
  | .bool _ => .error (.typeError "\x27bool\x27 object is not subscriptable")
  | .num _ => .error (.typeError "\x27int\x27 object is not subscriptable")

/-- The field names probed by `_extract_generated_text`
(`src/llm_wrapper.py` lines 157-160), in source order. -/
def textFields : List String :=
  ["response", "text", "generated_text", "output", "completion", "answer", "result"]

/-- The `choices` branch of `_extract_generated_text`
(`src/llm_wrapper.py` lines 162-168): `.ok (some v)` when the branch
returns `v`, `.ok none` when control falls through to the field probe,
`.error e` when a membership test or subscript raises. -/
def choicesBranch (result : Json) : Except PyErr (Option Json) :=
  match pyIn "choices" result with
  | .error e => .error e
  | .ok false => .ok none
  | .ok true =>
    match pySubscript result "choices" with
    | .error e => .error e
    | .ok (.arr (c :: _)) =>
      (match pyIn "text" c with
       | .error e => .error e
       | .ok true =>
         match pySubscript c "text" with
         | .error e => .error e
         | .ok v => .ok (some v)
       | .ok false =>
         match pyIn "message" c with
         | .error e => .error e
         | .ok false => .ok none
         | .ok true =>
           match pySubscript c "message" with
           | .error e => .error e
           | .ok m =>
             match pyIn "content" m with
             | .error e => .error e
             | .ok false => .ok none
             | .ok true =>
               match pySubscript m "content" with
               | .error e => .error e
               | .ok w => .ok (some w))
    | .ok _ => .ok none

/-- The field-probe loop of `_extract_generated_text`
(`src/llm_wrapper.py` lines 171-177): probe each field name in order and
return `str(result[field])` for the first one present; `str(result)` when
none is. -/
def probeFields (result : Json) : List String → Except PyErr Json
  | [] => .ok (.str (pyStr result))
  | f :: rest =>
    match pyIn f result with
    | .error e => .error e
    | .ok true =>
      match pySubscript result f with
      | .error e => .error e
      | .ok v => .ok (.str (pyStr v))
    | .ok false => probeFields result rest

/-- `E2ENetworksLLM._extract_generated_text` (`src/llm_wrapper.py`
lines 151-177): the `choices` branch first, then the field probe, then
`str(result)`. -/
def extractGeneratedText (result : Json) : Except PyErr Json :=
  match choicesBranch result with
  | .error e => .error e
  | .ok (some v) => .ok v
  | .ok none => probeFields result textFields

/-- Pure characterization of the field-probe loop on dict inputs: the value
of the first probed field present in the object, if any. -/
def firstField (fs : List (String × Json)) : List String → Option Json
  | [] => none
  | f :: rest =>
    match lookupKey f fs with
    | some v => some v
    | none => firstField fs rest

/-- The instance state set up by `E2ENetworksLLM.__init__`
(`src/llm_wrapper.py` lines 20-46).  `temperature`, `max_tokens` and
`top_p` are Python numbers, modelled as rationals; `timeout` is an int. -/
structure E2EInst where
  endpoint_url : String
  api_key : String
  model_name : String := "e2e-llm"
  temperature : ℚ := 7/10
  max_tokens : ℚ := 1000
  top_p : ℚ := 9/10
  timeout : Int := 30

/-- Python `a or b` on optional strings: `None` and `""` are falsy, so the
right operand is taken exactly when the left is absent or empty
(`endpoint_url or os.getenv(...)`, `src/llm_wrapper.py` lines 40-41). -/
def pyOrStr (a b : Option String) : Option String :=
  match a with
  | some s => if s = "" then b else some s
  | none => b

/-- Python truthiness of an optional string (`if not self.endpoint_url`):
`None` and `""` are falsy. -/
def truthyStr : Option String → Bool
  | some s => !s.isEmpty
  | none => false

/-- The credential resolution and validation of `E2ENetworksLLM.__init__`
(`src/llm_wrapper.py` lines 28-51): each credential is the explicit
parameter when truthy, else the environment variable; a `ValueError` is
raised when either resolves falsy (endpoint first).  Note: the source line
28 reads `def __init__(l` — a stray token that makes the file a Python
`SyntaxError`; this definition embeds the logic of the body, which is
unambiguous. -/
def initE2ENetworksLLM (endpoint_url api_key : Option String)
    (model_name : String) (temperature max_tokens top_p : ℚ) (timeout : Int)
    (envEndpointUrl envApiKey : Option String) : Except String E2EInst :=
  let ep := pyOrStr endpoint_url envEndpointUrl
  let ak := pyOrStr api_key envApiKey
  if truthyStr ep = false then
    .error "E2E endpoint URL must be provided via parameter or E2E_ENDPOINT_URL environment variable"
  else if truthyStr ak = false then
    .error "API key must be provided via parameter or E2E_API_KEY environment variable"
  else
    .ok { endpoint_url := ep.getD "", api_key := ak.getD "",
          model_name := model_name, temperature := temperature,
          max_tokens := max_tokens, top_p := top_p, timeout := timeout }

/-- `create_e2e_llm` (`src/llm_wrapper.py` lines 207-227): forwards to the
constructor with the class defaults for the remaining fields. -/
def createE2ELLM (endpoint_url api_key : Option String)
    (envEndpointUrl envApiKey : Option String) : Except String E2EInst :=
  initE2ENetworksLLM endpoint_url api_key "e2e-llm" (7/10) 1000 (9/10) 30
    envEndpointUrl envApiKey

/-- The known per-call override keys merged field-by-field
(`src/llm_wrapper.py` line 146). -/
def knownOverrideKeys : List String := ["temperature", "max_tokens", "top_p"]

/-- The pass-through loop of `_build_payload` (`src/llm_wrapper.py`
lines 144-147): each kwargs entry is appended exactly when its key is not
already in the payload and not one of the known override keys. -/
def addExtras (base : List (String × Json)) : List (String × Json) → List (String × Json)
  | [] => base
  | kv :: rest =>
    if (lookupKey kv.1 base).isSome ∨ kv.1 ∈ knownOverrideKeys then
      addExtras base rest
    else
      addExtras (base ++ [kv]) rest

/-- The payload dict literal of `_build_payload` (`src/llm_wrapper.py`
lines 133-139): `kwargs.get(field, default)` for the three known override
fields. -/
def basePayload (inst : E2EInst) (prompt : String)
    (kwargs : List (String × Json)) : List (String × Json) :=
  [("prompt", .str prompt),
   ("temperature", (lookupKey "temperature" kwargs).getD (.num inst.temperature)),
   ("max_tokens", (lookupKey "max_tokens" kwargs).getD (.num inst.max_tokens)),
   ("top_p", (lookupKey "top_p" kwargs).getD (.num inst.top_p)),
   ("model", .str inst.model_name)]

/-- The `if stop: payload["stop"] = stop` step (`src/llm_wrapper.py`
lines 141-142): appended only when `stop` is truthy (neither `None` nor
`[]`). -/
def withStopPayload (inst : E2EInst) (prompt : String) (stop : Option (List String))
    (kwargs : List (String × Json)) : List (String × Json) :=
  match stop with
  | some (s :: rest) => basePayload inst prompt kwargs ++ [("stop", .arr ((s :: rest).map .str))]
  | _ => basePayload inst prompt kwargs

/-- `E2ENetworksLLM._build_payload` (`src/llm_wrapper.py` lines 131-149).
`kwargs` models the `**kwargs` dict (its keys are distinct, and Python's
argument binding means it can never contain `"prompt"` or `"stop"`, which
would bind to the named parameters instead). -/
def buildPayload (inst : E2EInst) (prompt : String) (stop : Option (List String))
    (kwargs : List (String × Json)) : List (String × Json) :=
  addExtras (withStopPayload inst prompt stop kwargs) kwargs

/-- Outcome of the `requests.post` / `raise_for_status` / `response.json()`
step of `_call`, which is external I/O: each constructor matches one of the
handlers of `src/llm_wrapper.py` lines 98-121 (`unexpected` stands for any
other exception raised inside the `try` before extraction). -/
inductive ReqOutcome where
  | timeout : ReqOutcome
  | httpError (status : Int) (body : String) : ReqOutcome
  | transportError (msg : String) : ReqOutcome
  | invalidJson (msg : String) : ReqOutcome
  | unexpected (msg : String) : ReqOutcome
  | ok (result : Json) : ReqOutcome

/-- Python `str(e)` of an embedded exception. -/
def pyErrMsg : PyErr → String
  | .typeError m => m
  | .keyError k => "\x27" ++ k ++ "\x27"

/-- `return f"Error: \x7berror_msg\x7d"`, the result shape shared by every
handler of `_call`. -/
def errorWrap (error_msg : String) : Json := .str ("Error: " ++ error_msg)

/-- `E2ENetworksLLM._call` (`src/llm_wrapper.py` lines 58-121): build the
payload, perform the request (abstracted as `env prompt`), then normalize.
Every handler returns a plain string, so the embedding is a total function
into `Json` — no exception escapes.  An extraction failure is caught by the
final `except Exception` handler.  (With requests >= 2.27 an invalid JSON
body raises an exception that is both a `RequestException` and a
`json.JSONDecodeError`; both handlers produce an `"Error:"`-prefixed
string, and the dedicated JSON handler's message is modelled.) -/
def pyCall (env : String → ReqOutcome) (inst : E2EInst) (prompt : String)
    (stop : Option (List String)) (kwargs : List (String × Json)) : Json :=
  let _payload := buildPayload inst prompt stop kwargs
  match env prompt with
  | .timeout =>
    errorWrap ("Request to E2E LLM timed out after " ++ toString inst.timeout ++ " seconds")
  | .httpError status body =>
    errorWrap ("HTTP error " ++ toString status ++ ": " ++ body)
  | .transportError m => errorWrap ("Request failed: " ++ m)
  | .invalidJson m => errorWrap ("Failed to parse JSON response: " ++ m)
  | .unexpected m => errorWrap ("Unexpected error: " ++ m)
  | .ok r =>
    match extractGeneratedText r with
    | .ok v => v
    | .error e => errorWrap ("Unexpected error: " ++ pyErrMsg e)

/-- A request outcome on which the remote-request step failed (everything
except a parsed JSON body). -/
def isReqFailure : ReqOutcome → Bool
  | .ok _ => false
  | _ => true

/-- `langchain.schema.Generation`, as used by `_generate` (only the `text`
field is set). -/
structure Generation where
  text : Json

/-- `langchain.schema.LLMResult`, as returned by `_generate`. -/
structure LLMResult where
  generations : List (List Generation)

/-- `E2ENetworksLLM._generate` (`src/llm_wrapper.py` lines 179-204): one
`_call` per prompt, in input order, each wrapped as a singleton
`Generation` list. -/
def pyGenerate (env : String → ReqOutcome) (inst : E2EInst) (prompts : List String)
    (stop : Option (List String)) (kwargs : List (String × Json)) : LLMResult :=
  ⟨prompts.map fun p => [⟨pyCall env inst p stop kwargs⟩]⟩

/-- A concrete instance for witnesses (both credentials resolved). -/
def demoInst : E2EInst := { endpoint_url := "https://example.invalid/v1", api_key := "demo-key" }

/-- A concrete transport for witnesses: prompt `"B"` times out, every other
prompt completes with a `text` response. -/
def demoEnv : String → ReqOutcome :=
  fun p => if p = "B" then .timeout else .ok (.obj [("text", .str ("done-" ++ p))])

/-- `extractGeneratedText` returned a value (no exception). -/
def isOkResult : Except PyErr Json → Bool
  | .ok _ => true
  | .error _ => false

/-- Decidable safety condition on a response object's `choices` shape,
used to state where the normalizer is total: whenever the `choices` branch
selects a first element, that element is an object, and — when `text` is
absent so `message` is consulted — its `message` value is an object. -/
def safeChoicesShape (fs : List (String × Json)) : Bool :=
  match lookupKey "choices" fs with
  | some (.arr (c :: _)) =>
    match c with
    | .obj cf =>
      (match lookupKey "text" cf with
       | some _ => true
       | none =>
         match lookupKey "message" cf with
         | none => true
         | some (.obj _) => true
         | some _ => false)
    | _ => false
  | _ => true

/-! ### Association-list lemmas -/

theorem lookupKey_append (k : String) (l₁ l₂ : List (String × Json)) :
    lookupKey k (l₁ ++ l₂) =
      match lookupKey k l₁ with
      | some v => some v
      | none => lookupKey k l₂ := by
  induction l₁ with
  | nil => simp [lookupKey]
  | cons kv rest ih =>
    by_cases h : kv.1 = k <;> simp [lookupKey, h, ih]

theorem lookupKey_eq_none_iff (k : String) (l : List (String × Json)) :
    lookupKey k l = none ↔ k ∉ l.map Prod.fst := by
  induction l with
  | nil => simp [lookupKey]
  | cons kv rest ih =>
    by_cases h : kv.1 = k
    · subst h; simp [lookupKey]
    · have h' : k ≠ kv.1 := fun hh => h hh.symm
      simp [lookupKey, h, h', ih]

theorem lookupKey_isSome_iff (k : String) (l : List (String × Json)) :
    (lookupKey k l).isSome = true ↔ k ∈ l.map Prod.fst := by
  rw [Option.isSome_iff_ne_none]
  exact (not_iff_not.mpr (lookupKey_eq_none_iff k l)).trans not_not

theorem addExtras_lookup_of_isSome (k : String) (kwargs : List (String × Json)) :
    ∀ base, (lookupKey k base).isSome →
      lookupKey k (addExtras base kwargs) = lookupKey k base := by
  induction kwargs with
  | nil => intro base _; rfl
  | cons kv rest ih =>
    intro base hbase
    by_cases h : (lookupKey kv.1 base).isSome ∨ kv.1 ∈ knownOverrideKeys
    · rw [addExtras, if_pos h]; exact ih base hbase
    · rw [addExtras, if_neg h]
      have happ : lookupKey k (base ++ [kv]) = lookupKey k base := by
        rw [lookupKey_append]
        obtain ⟨v, hv⟩ := Option.isSome_iff_exists.mp hbase
        simp [hv]
      rw [ih (base ++ [kv]) (by rw [happ]; exact hbase), happ]

theorem addExtras_lookup_of_absent (k : String) (kwargs : List (String × Json))
    (hk : k ∉ kwargs.map Prod.fst) :
    ∀ base, lookupKey k base = none →
      lookupKey k (addExtras base kwargs) = none := by
  induction kwargs with
  | nil => intro base hbase; exact hbase
  | cons kv rest ih =>
    simp only [List.map_cons, List.mem_cons, not_or] at hk
    intro base hbase
    by_cases h : (lookupKey kv.1 base).isSome ∨ kv.1 ∈ knownOverrideKeys
    · rw [addExtras, if_pos h]; exact ih hk.2 base hbase
    · rw [addExtras, if_neg h]
      refine ih hk.2 (base ++ [kv]) ?_
      rw [lookupKey_append, hbase]
      have h' : ¬kv.1 = k := fun hh => hk.1 hh.symm
      simp [lookupKey, h']

theorem addExtras_passthrough (k : String) (v : Json) (kwargs : List (String × Json))
    (hknown : k ∉ knownOverrideKeys) :
    ∀ base, lookupKey k base = none → lookupKey k kwargs = some v →
      lookupKey k (addExtras base kwargs) = some v := by
  induction kwargs with
  | nil => intro base _ hkw; simp [lookupKey] at hkw
  | cons kv rest ih =>
    intro base hbase hkw
    by_cases hkey : kv.1 = k
    · subst hkey
      rw [lookupKey, if_pos rfl] at hkw
      have h : ¬((lookupKey kv.1 base).isSome ∨ kv.1 ∈ knownOverrideKeys) := by
        simp [hbase, hknown]
      rw [addExtras, if_neg h]
      have hsome : (lookupKey kv.1 (base ++ [kv])).isSome := by
        rw [lookupKey_append, hbase]
        simp [lookupKey]
      rw [addExtras_lookup_of_isSome _ _ _ hsome, lookupKey_append, hbase]
      simp [lookupKey, hkw]
    · rw [lookupKey, if_neg hkey] at hkw
      by_cases h : (lookupKey kv.1 base).isSome ∨ kv.1 ∈ knownOverrideKeys
      · rw [addExtras, if_pos h]; exact ih base hbase hkw
      · rw [addExtras, if_neg h]
        refine ih (base ++ [kv]) ?_ hkw
        rw [lookupKey_append, hbase]
        simp [lookupKey, hkey]

theorem addExtras_keys_nodup (kwargs : List (String × Json)) :
    ∀ base, (base.map Prod.fst).Nodup →
      ((addExtras base kwargs).map Prod.fst).Nodup := by
  induction kwargs with
  | nil => intro base hbase; exact hbase
  | cons kv rest ih =>
    intro base hbase
    by_cases h : (lookupKey kv.1 base).isSome ∨ kv.1 ∈ knownOverrideKeys
    · rw [addExtras, if_pos h]; exact ih base hbase
    · rw [addExtras, if_neg h]
      refine ih (base ++ [kv]) ?_
      have hnotmem : kv.1 ∉ base.map Prod.fst := by
        intro hmem
        exact h (Or.inl ((lookupKey_isSome_iff kv.1 base).mpr hmem))
      simp [List.nodup_append, hbase, hnotmem]

/-! ### Normalizer characterization lemmas -/

theorem choicesBranch_text (fs cf : List (String × Json)) (tail : List Json) (v : Json)
    (h1 : lookupKey "choices" fs = some (.arr (.obj cf :: tail)))
    (h2 : lookupKey "text" cf = some v) :
    choicesBranch (.obj fs) = .ok (some v) := by
  simp [choicesBranch, pyIn, pySubscript, h1, h2]

theorem choicesBranch_message (fs cf mf : List (String × Json)) (tail : List Json) (w : Json)
    (h1 : lookupKey "choices" fs = some (.arr (.obj cf :: tail)))
    (h2 : lookupKey "text" cf = none)
    (h3 : lookupKey "message" cf = some (.obj mf))
    (h4 : lookupKey "content" mf = some w) :
    choicesBranch (.obj fs) = .ok (some w) := by
  simp [choicesBranch, pyIn, pySubscript, h1, h2, h3, h4]

theorem choicesBranch_notTaken (fs : List (String × Json))
    (h : ∀ xs, lookupKey "choices" fs = some (.arr xs) → xs = []) :
    choicesBranch (.obj fs) = .ok none := by
  cases hc : lookupKey "choices" fs with
  | none => simp [choicesBranch, pyIn, hc]
  | some j =>
    cases j with
    | arr xs =>
      have hxs := h xs hc
      subst hxs
      simp [choicesBranch, pyIn, pySubscript, hc]
    | null => simp [choicesBranch, pyIn, pySubscript, hc]
    | bool b => simp [choicesBranch, pyIn, pySubscript, hc]
    | num q => simp [choicesBranch, pyIn, pySubscript, hc]
    | str s => simp [choicesBranch, pyIn, pySubscript, hc]
    | obj gs => simp [choicesBranch, pyIn, pySubscript, hc]

theorem choicesBranch_fallthrough (fs cf : List (String × Json)) (tail : List Json)
    (h1 : lookupKey "choices" fs = some (.arr (.obj cf :: tail)))
    (h2 : lookupKey "text" cf = none)
    (h3 : lookupKey "message" cf = none ∨
          ∃ mf, lookupKey "message" cf = some (.obj mf) ∧ lookupKey "content" mf = none) :
    choicesBranch (.obj fs) = .ok none := by
  rcases h3 with h3 | ⟨mf, h3, h4⟩
  · simp [choicesBranch, pyIn, pySubscript, h1, h2, h3]
  · simp [choicesBranch, pyIn, pySubscript, h1, h2, h3, h4]

theorem probeFields_obj (fs : List (String × Json)) :
    ∀ flds, probeFields (.obj fs) flds =
      .ok (match firstField fs flds with
           | some v => .str (pyStr v)
           | none => .str (pyStr (.obj fs))) := by
  intro flds
  induction flds with
  | nil => simp [probeFields, firstField]
  | cons f rest ih =>
    cases hf : lookupKey f fs with
    | none => simp [probeFields, pyIn, pySubscript, firstField, hf, ih]
    | some v => simp [probeFields, pyIn, pySubscript, firstField, hf]

theorem extract_of_choicesBranch_ok (fs : List (String × Json)) (v : Json)
    (h : choicesBranch (.obj fs) = .ok (some v)) :
    extractGeneratedText (.obj fs) = .ok v := by
  simp [extractGeneratedText, h]

theorem extract_of_choicesBranch_none (fs : List (String × Json))
    (h : choicesBranch (.obj fs) = .ok none) :
    extractGeneratedText (.obj fs) =
      .ok (match firstField fs textFields with
           | some v => .str (pyStr v)
           | none => .str (pyStr (.obj fs))) := by
  simp [extractGeneratedText, h, probeFields_obj]

/-! ### Payload lemmas and claims C3, C4 -/

theorem buildPayload_stop_lookup (inst : E2EInst) (prompt : String)
    (stop : Option (List String)) (kwargs : List (String × Json))
    (hk : "stop" ∉ kwargs.map Prod.fst) :
    lookupKey "stop" (buildPayload inst prompt stop kwargs) =
      match stop with
      | some (s :: rest) => some (.arr ((s :: rest).map .str))
      | _ => none := by
  rcases stop with _ | ⟨_ | ⟨s, r⟩⟩
  · exact addExtras_lookup_of_absent "stop" kwargs hk _ rfl
  · exact addExtras_lookup_of_absent "stop" kwargs hk _ rfl
  · exact (addExtras_lookup_of_isSome "stop" kwargs
      (withStopPayload inst prompt (some (s :: r)) kwargs) rfl).trans rfl

theorem buildPayload_stop_mem (inst : E2EInst) (prompt : String)
    (stop : Option (List String)) (kwargs : List (String × Json))
    (hk : "stop" ∉ kwargs.map Prod.fst) :
    "stop" ∈ (buildPayload inst prompt stop kwargs).map Prod.fst ↔
      ∃ l, stop = some l ∧ l ≠ [] := by
  rcases stop with _ | ⟨_ | ⟨s, r⟩⟩
  · have hlook : lookupKey "stop" (buildPayload inst prompt none kwargs) = none :=
      addExtras_lookup_of_absent "stop" kwargs hk _ rfl
    constructor
    · intro hmem
      have hs := (lookupKey_isSome_iff "stop" _).mpr hmem
      rw [hlook] at hs
      simp at hs
    · rintro ⟨l, hl, _⟩
      exact Option.noConfusion hl
  · have hlook : lookupKey "stop" (buildPayload inst prompt (some []) kwargs) = none :=
      addExtras_lookup_of_absent "stop" kwargs hk _ rfl
    constructor
    · intro hmem
      have hs := (lookupKey_isSome_iff "stop" _).mpr hmem
      rw [hlook] at hs
      simp at hs
    · rintro ⟨l, hl, hne⟩
      injection hl with hl'
      exact absurd hl'.symm hne
  · constructor
    · intro _
      exact ⟨s :: r, rfl, by simp⟩
    · intro _
      have hlook : lookupKey "stop" (buildPayload inst prompt (some (s :: r)) kwargs) =
          some (.arr ((s :: r).map .str)) :=
        (addExtras_lookup_of_isSome "stop" kwargs
          (withStopPayload inst prompt (some (s :: r)) kwargs) rfl).trans rfl
      exact (lookupKey_isSome_iff "stop" _).mp (by rw [hlook]; rfl)

/-- C4: for every call, the payload contains the `"stop"` key iff the stop
list is present and non-empty; when absent or empty the key is omitted
entirely (not stored as null or an empty list), and when non-empty it is
included exactly as given.  The hypothesis records Python's argument
binding: `**kwargs` can never capture the named parameter `stop`. -/
theorem payload_stop_c4 (inst : E2EInst) (prompt : String) (stop : Option (List String))
    (kwargs : List (String × Json)) (hk : "stop" ∉ kwargs.map Prod.fst) :
    lookupKey "stop" (buildPayload inst prompt stop kwargs) =
      (match stop with
       | some (s :: rest) => some (.arr ((s :: rest).map .str))
       | _ => none)
    ∧ ("stop" ∈ (buildPayload inst prompt stop kwargs).map Prod.fst ↔
        ∃ l, stop = some l ∧ l ≠ []) :=
  ⟨buildPayload_stop_lookup inst prompt stop kwargs hk,
   buildPayload_stop_mem inst prompt stop kwargs hk⟩

/-- Witness for C4 at `stop = some ["END"]` and `stop = none`. -/
theorem payload_stop_c4_witness :
    lookupKey "stop" (buildPayload demoInst "hi" (some ["END"]) []) =
      some (.arr [.str "END"])
    ∧ lookupKey "stop" (buildPayload demoInst "hi" none []) = none :=
  ⟨((payload_stop_c4 demoInst "hi" (some ["END"]) [] (by decide)).1).trans rfl,
   ((payload_stop_c4 demoInst "hi" none [] (by decide)).1).trans rfl⟩

theorem errorWrap_prefixed (m : String) : ∃ rest, errorWrap m = .str ("Error:" ++ rest) :=
  ⟨" " ++ m, by rw [errorWrap, ← String.append_assoc]; rfl⟩

/-- C3: whenever the remote-request step fails (timeout, non-2xx status,
transport failure, invalid JSON body, or any other exception — including a
`TypeError` escaping the normalizer), `_call` returns a string prefixed
with `"Error:"`.  No exception propagates: `pyCall` is a total function. -/
theorem call_errors_c3 (env : String → ReqOutcome) (inst : E2EInst) (prompt : String)
    (stop : Option (List String)) (kwargs : List (String × Json)) :
    (isReqFailure (env prompt) = true →
      ∃ rest, pyCall env inst prompt stop kwargs = .str ("Error:" ++ rest))
    ∧ (∀ r e, env prompt = .ok r → extractGeneratedText r = .error e →
      ∃ rest, pyCall env inst prompt stop kwargs = .str ("Error:" ++ rest)) := by
  constructor
  · intro hfail
    cases ho : env prompt with
    | ok r => rw [ho] at hfail; exact absurd hfail (by simp [isReqFailure])
    | timeout => simp only [pyCall, ho]; exact errorWrap_prefixed _
    | httpError status body => simp only [pyCall, ho]; exact errorWrap_prefixed _
    | transportError m => simp only [pyCall, ho]; exact errorWrap_prefixed _
    | invalidJson m => simp only [pyCall, ho]; exact errorWrap_prefixed _
    | unexpected m => simp only [pyCall, ho]; exact errorWrap_prefixed _
  · intro r e hr he
    simp only [pyCall, hr, he]
    exact errorWrap_prefixed _

/-- Witness for C3 at a concrete timed-out call. -/
theorem call_errors_c3_witness :
    ∃ rest, pyCall demoEnv demoInst "B" none [] = .str ("Error:" ++ rest) :=
  (call_errors_c3 demoEnv demoInst "B" none []).1 rfl

/-! ### Claims C6, C7, C9 -/

theorem buildPayload_lookup_known (k : String) (inst : E2EInst) (prompt : String)
    (stop : Option (List String)) (kwargs : List (String × Json))
    (h : (lookupKey k (withStopPayload inst prompt stop kwargs)).isSome = true) :
    lookupKey k (buildPayload inst prompt stop kwargs) =
      lookupKey k (withStopPayload inst prompt stop kwargs) :=
  addExtras_lookup_of_isSome k kwargs _ h

theorem buildPayload_keys_nodup (inst : E2EInst) (prompt : String)
    (stop : Option (List String)) (kwargs : List (String × Json))
    (h : ((withStopPayload inst prompt stop kwargs).map Prod.fst).Nodup) :
    ((buildPayload inst prompt stop kwargs).map Prod.fst).Nodup :=
  addExtras_keys_nodup kwargs _ h

/-- Counterexample to C6 as stated: `"model"` is not one of the known
fields `temperature`/`max_tokens`/`top_p`, yet an override `model := "x"`
is not passed through — the loop skips any key already in the payload, so
the payload keeps the instance model name. -/
theorem payload_passthrough_c6_counterexample :
    lookupKey "model" (buildPayload demoInst "hi" none [("model", .str "x")]) ≠
      some (.str "x")
    ∧ lookupKey "model" (buildPayload demoInst "hi" none [("model", .str "x")]) =
      some (.str "e2e-llm") := by
  refine ⟨?_, rfl⟩
  intro h
  rw [show lookupKey "model" (buildPayload demoInst "hi" none [("model", Json.str "x")]) =
      some (Json.str "e2e-llm") from rfl] at h
  injection h with h1
  injection h1 with h2
  exact absurd h2 (by decide)

/-- C6 (amended): an override key that is not one of the known fields and
does not collide with a key the base payload already holds (`prompt`,
`model`, or `stop`) is passed through verbatim into the payload. -/
theorem payload_passthrough_c6_amended (inst : E2EInst) (prompt : String)
    (stop : Option (List String)) (kwargs : List (String × Json)) (k : String) (v : Json)
    (hk : k ∉ ["prompt", "temperature", "max_tokens", "top_p", "model", "stop"])
    (hkv : lookupKey k kwargs = some v) :
    lookupKey k (buildPayload inst prompt stop kwargs) = some v := by
  simp only [List.mem_cons, List.not_mem_nil, or_false, not_or] at hk
  obtain ⟨hk1, hk2, hk3, hk4, hk5, hk6⟩ := hk
  have n1 : ¬("prompt" = k) := fun h => hk1 h.symm
  have n2 : ¬("temperature" = k) := fun h => hk2 h.symm
  have n3 : ¬("max_tokens" = k) := fun h => hk3 h.symm
  have n4 : ¬("top_p" = k) := fun h => hk4 h.symm
  have n5 : ¬("model" = k) := fun h => hk5 h.symm
  have n6 : ¬("stop" = k) := fun h => hk6 h.symm
  have hknown : k ∉ knownOverrideKeys := by
    intro hm
    simp only [knownOverrideKeys, List.mem_cons, List.not_mem_nil, or_false] at hm
    rcases hm with h | h | h
    exacts [hk2 h, hk3 h, hk4 h]
  have hbase : lookupKey k (withStopPayload inst prompt stop kwargs) = none := by
    rcases stop with _ | ⟨_ | ⟨s, r⟩⟩ <;>
      simp [withStopPayload, basePayload, lookupKey, lookupKey_append, n1, n2, n3, n4, n5, n6]
  exact addExtras_passthrough k v kwargs hknown _ hbase hkv

/-- Witness for the amended C6: an unknown key `"foo"` passes through. -/
theorem payload_passthrough_c6_witness :
    lookupKey "foo" (buildPayload demoInst "hi" none [("foo", .str "bar")]) =
      some (.str "bar") :=
  payload_passthrough_c6_amended demoInst "hi" none [("foo", .str "bar")] "foo"
    (.str "bar") (by decide) rfl

/-- C7: the payload's `temperature`, `max_tokens` and `top_p` each equal
the per-call override when one is supplied and the instance default
otherwise; and overriding only `temperature` yields exactly the payload of
an instance whose default temperature is the override, all other fields
unchanged. -/
theorem payload_overrides_c7 (inst : E2EInst) (prompt : String)
    (stop : Option (List String)) (kwargs : List (String × Json)) :
    lookupKey "temperature" (buildPayload inst prompt stop kwargs) =
      some ((lookupKey "temperature" kwargs).getD (.num inst.temperature))
    ∧ lookupKey "max_tokens" (buildPayload inst prompt stop kwargs) =
      some ((lookupKey "max_tokens" kwargs).getD (.num inst.max_tokens))
    ∧ lookupKey "top_p" (buildPayload inst prompt stop kwargs) =
      some ((lookupKey "top_p" kwargs).getD (.num inst.top_p))
    ∧ ∀ t : ℚ, buildPayload inst prompt stop [("temperature", .num t)] =
        buildPayload { inst with temperature := t } prompt stop [] := by
  refine ⟨?_, ?_, ?_, ?_⟩
  · rcases stop with _ | ⟨_ | ⟨s, r⟩⟩
    · exact (buildPayload_lookup_known "temperature" inst prompt none kwargs rfl).trans rfl
    · exact (buildPayload_lookup_known "temperature" inst prompt (some []) kwargs rfl).trans rfl
    · exact (buildPayload_lookup_known "temperature" inst prompt (some (s :: r)) kwargs rfl).trans rfl
  · rcases stop with _ | ⟨_ | ⟨s, r⟩⟩
    · exact (buildPayload_lookup_known "max_tokens" inst prompt none kwargs rfl).trans rfl
    · exact (buildPayload_lookup_known "max_tokens" inst prompt (some []) kwargs rfl).trans rfl
    · exact (buildPayload_lookup_known "max_tokens" inst prompt (some (s :: r)) kwargs rfl).trans rfl
  · rcases stop with _ | ⟨_ | ⟨s, r⟩⟩
    · exact (buildPayload_lookup_known "top_p" inst prompt none kwargs rfl).trans rfl
    · exact (buildPayload_lookup_known "top_p" inst prompt (some []) kwargs rfl).trans rfl
    · exact (buildPayload_lookup_known "top_p" inst prompt (some (s :: r)) kwargs rfl).trans rfl
  · intro t
    rcases stop with _ | ⟨_ | ⟨s, r⟩⟩ <;> rfl

/-- C9 (frame): for every set of keyword overrides, the payload's
`"prompt"` entry is the prompt argument and its `"model"` entry is the
instance model name (overrides can never displace them, because the
pass-through loop skips keys already present); the payload never holds a
duplicate key, so nothing is passed through as an extra either; and under
Python's binding guarantee that `**kwargs` cannot capture `"stop"`, the
`"stop"` entry is dictated solely by the stop argument. -/
theorem payload_frame_c9 (inst : E2EInst) (prompt : String)
    (stop : Option (List String)) (kwargs : List (String × Json)) :
    lookupKey "prompt" (buildPayload inst prompt stop kwargs) = some (.str prompt)
    ∧ lookupKey "model" (buildPayload inst prompt stop kwargs) =
        some (.str inst.model_name)
    ∧ ((buildPayload inst prompt stop kwargs).map Prod.fst).Nodup
    ∧ ("stop" ∉ kwargs.map Prod.fst →
        ("stop" ∈ (buildPayload inst prompt stop kwargs).map Prod.fst ↔
          ∃ l, stop = some l ∧ l ≠ [])) := by
  refine ⟨?_, ?_, ?_, fun hk => buildPayload_stop_mem inst prompt stop kwargs hk⟩
  · rcases stop with _ | ⟨_ | ⟨s, r⟩⟩
    · exact (buildPayload_lookup_known "prompt" inst prompt none kwargs rfl).trans rfl
    · exact (buildPayload_lookup_known "prompt" inst prompt (some []) kwargs rfl).trans rfl
    · exact (buildPayload_lookup_known "prompt" inst prompt (some (s :: r)) kwargs rfl).trans rfl
  · rcases stop with _ | ⟨_ | ⟨s, r⟩⟩
    · exact (buildPayload_lookup_known "model" inst prompt none kwargs rfl).trans rfl
    · exact (buildPayload_lookup_known "model" inst prompt (some []) kwargs rfl).trans rfl
    · exact (buildPayload_lookup_known "model" inst prompt (some (s :: r)) kwargs rfl).trans rfl
  · rcases stop with _ | ⟨_ | ⟨s, r⟩⟩
    · refine buildPayload_keys_nodup inst prompt none kwargs ?_
      rw [show (withStopPayload inst prompt none kwargs).map Prod.fst =
          ["prompt", "temperature", "max_tokens", "top_p", "model"] from rfl]
      decide
    · refine buildPayload_keys_nodup inst prompt (some []) kwargs ?_
      rw [show (withStopPayload inst prompt (some []) kwargs).map Prod.fst =
          ["prompt", "temperature", "max_tokens", "top_p", "model"] from rfl]
      decide
    · refine buildPayload_keys_nodup inst prompt (some (s :: r)) kwargs ?_
      rw [show (withStopPayload inst prompt (some (s :: r)) kwargs).map Prod.fst =
          ["prompt", "temperature", "max_tokens", "top_p", "model", "stop"] from rfl]
      decide

/-- Witness for C9 at a concrete call with an extra override and a stop
list. -/
theorem payload_frame_c9_witness :
    lookupKey "prompt" (buildPayload demoInst "q" (some ["END"]) [("foo", .str "bar")]) =
      some (.str "q")
    ∧ ("stop" ∈ (buildPayload demoInst "q" (some ["END"]) [("foo", .str "bar")]).map
        Prod.fst ↔ ∃ l, (some ["END"] : Option (List String)) = some l ∧ l ≠ []) :=
  ⟨(payload_frame_c9 demoInst "q" (some ["END"]) [("foo", .str "bar")]).1,
   (payload_frame_c9 demoInst "q" (some ["END"]) [("foo", .str "bar")]).2.2.2 (by decide)⟩

/-! ### Claims C1, C5, C10 -/

/-- C1: the normalizer's exact priority.  (a) a non-empty `choices` list
whose first element carries `text` returns that value; (b) else the
`content` of that element's `message`; (c) when no non-empty `choices`
list is present, the first field present among the seven probe names, in
that exact order and coerced to string (else the stringified object);
(d) the same probe applies when the first `choices` element carries
neither `text` nor a `message` with `content`; (e) in particular
`\x7b"text": "C", "response": "D"\x7d` extracts `"D"`, and a `choices`
shape always beats a top-level field of the same name (a). -/
theorem extract_priority_c1 :
    (∀ (fs cf : List (String × Json)) (tail : List Json) (v : Json),
        lookupKey "choices" fs = some (.arr (.obj cf :: tail)) →
        lookupKey "text" cf = some v →
        extractGeneratedText (.obj fs) = .ok v)
    ∧ (∀ (fs cf mf : List (String × Json)) (tail : List Json) (w : Json),
        lookupKey "choices" fs = some (.arr (.obj cf :: tail)) →
        lookupKey "text" cf = none →
        lookupKey "message" cf = some (.obj mf) →
        lookupKey "content" mf = some w →
        extractGeneratedText (.obj fs) = .ok w)
    ∧ (∀ fs : List (String × Json),
        (∀ xs, lookupKey "choices" fs = some (.arr xs) → xs = []) →
        extractGeneratedText (.obj fs) =
          .ok (match firstField fs textFields with
               | some v => .str (pyStr v)
               | none => .str (pyStr (.obj fs))))
    ∧ (∀ (fs cf : List (String × Json)) (tail : List Json),
        lookupKey "choices" fs = some (.arr (.obj cf :: tail)) →
        lookupKey "text" cf = none →
        (lookupKey "message" cf = none ∨
         ∃ mf, lookupKey "message" cf = some (.obj mf) ∧ lookupKey "content" mf = none) →
        extractGeneratedText (.obj fs) =
          .ok (match firstField fs textFields with
               | some v => .str (pyStr v)
               | none => .str (pyStr (.obj fs))))
    ∧ extractGeneratedText (.obj [("text", .str "C"), ("response", .str "D")]) =
        .ok (.str "D") :=
  ⟨fun fs cf tail v h1 h2 =>
      extract_of_choicesBranch_ok fs v (choicesBranch_text fs cf tail v h1 h2),
   fun fs cf mf tail w h1 h2 h3 h4 =>
      extract_of_choicesBranch_ok fs w (choicesBranch_message fs cf mf tail w h1 h2 h3 h4),
   fun fs h => extract_of_choicesBranch_none fs (choicesBranch_notTaken fs h),
   fun fs cf tail h1 h2 h3 =>
      extract_of_choicesBranch_none fs (choicesBranch_fallthrough fs cf tail h1 h2 h3),
   rfl⟩

/-- Witness for C1: the `choices` branch wins over a top-level `"text"`
field. -/
theorem extract_priority_c1_witness :
    extractGeneratedText
        (.obj [("choices", .arr [.obj [("text", .str "A")]]), ("text", .str "Z")]) =
      .ok (.str "A") :=
  extract_priority_c1.1 [("choices", .arr [.obj [("text", .str "A")]]), ("text", .str "Z")]
    [("text", .str "A")] [] (.str "A") rfl rfl

theorem firstField_eq_none (fs : List (String × Json)) :
    ∀ flds, (∀ f ∈ flds, lookupKey f fs = none) → firstField fs flds = none := by
  intro flds
  induction flds with
  | nil => intro _; rfl
  | cons f rest ih =>
    intro h
    have hf := h f (by simp)
    simp only [firstField, hf]
    exact ih fun g hg => h g (List.mem_cons_of_mem f hg)

/-- C5: a response object with no matching `choices` shape and none of the
seven probe fields extracts to the Python string form of the whole object,
returned as a normal (non-error) result; in particular
`\x7b"foo": "bar"\x7d` extracts to its string form. -/
theorem extract_fallback_c5 :
    (∀ fs : List (String × Json),
        (∀ xs, lookupKey "choices" fs = some (.arr xs) → xs = []) →
        (∀ f ∈ textFields, lookupKey f fs = none) →
        extractGeneratedText (.obj fs) = .ok (.str (pyStr (.obj fs))))
    ∧ extractGeneratedText (.obj [("foo", .str "bar")]) =
        .ok (.str "\x7b\x27foo\x27: \x27bar\x27\x7d") := by
  constructor
  · intro fs hc hf
    rw [extract_of_choicesBranch_none fs (choicesBranch_notTaken fs hc),
      firstField_eq_none fs textFields hf]
  · rfl

/-- Witness for C5 at a fresh unrecognized object. -/
theorem extract_fallback_c5_witness :
    extractGeneratedText (.obj [("qux", .bool true)]) =
      .ok (.str "\x7b\x27qux\x27: True\x7d") :=
  (extract_fallback_c5.1 [("qux", .bool true)]
    (fun _ h => Option.noConfusion h)
    (by intro f hf; fin_cases hf <;> rfl)).trans rfl

/-- Counterexample to C10 as stated: the normalizer is not total — when the
first `choices` element is a number, the Python membership test
`"text" in choice` raises a `TypeError` instead of falling through. -/
theorem extract_total_c10_counterexample :
    extractGeneratedText (.obj [("choices", .arr [.num 0])]) =
      .error (.typeError "argument of type \x27int\x27 is not iterable") := rfl

/-- C10 (amended): the normalizer returns a value without raising on every
response object whose `choices` shape is safe — whenever the branch selects
a first element, that element is an object, and its `message` value (when
consulted) is an object; a first element lacking both `text` and a
`message` with `content` falls through to the field probe and
stringification.  On unsafe shapes (and on non-object responses hitting the
same membership tests) a `TypeError` escapes the normalizer and is absorbed
by the caller's generic handler. -/
theorem extract_total_c10_amended (fs : List (String × Json))
    (h : safeChoicesShape fs = true) :
    isOkResult (extractGeneratedText (.obj fs)) = true := by
  have hBranch : ∃ o, choicesBranch (.obj fs) = .ok o := by
    cases hc : lookupKey "choices" fs with
    | none =>
      exact ⟨none, choicesBranch_notTaken fs fun xs hx =>
        Option.noConfusion (hc.symm.trans hx)⟩
    | some j =>
      cases j with
      | arr xs =>
        cases xs with
        | nil =>
          refine ⟨none, choicesBranch_notTaken fs fun ys hy => ?_⟩
          rw [hc] at hy
          injection hy with hy'
          injection hy' with hy''
          exact hy''.symm
        | cons c tail =>
          cases c with
          | obj cf =>
            cases ht : lookupKey "text" cf with
            | some v => exact ⟨some v, choicesBranch_text fs cf tail v hc ht⟩
            | none =>
              cases hm : lookupKey "message" cf with
              | none => exact ⟨none, choicesBranch_fallthrough fs cf tail hc ht (Or.inl hm)⟩
              | some m =>
                cases m with
                | obj mf =>
                  cases hcont : lookupKey "content" mf with
                  | some w =>
                    exact ⟨some w, choicesBranch_message fs cf mf tail w hc ht hm hcont⟩
                  | none =>
                    exact ⟨none,
                      choicesBranch_fallthrough fs cf tail hc ht (Or.inr ⟨mf, hm, hcont⟩)⟩
                | null => simp [safeChoicesShape, hc, ht, hm] at h
                | bool b => simp [safeChoicesShape, hc, ht, hm] at h
                | num q => simp [safeChoicesShape, hc, ht, hm] at h
                | str s => simp [safeChoicesShape, hc, ht, hm] at h
                | arr ys => simp [safeChoicesShape, hc, ht, hm] at h
          | null => simp [safeChoicesShape, hc] at h
          | bool b => simp [safeChoicesShape, hc] at h
          | num q => simp [safeChoicesShape, hc] at h
          | str s => simp [safeChoicesShape, hc] at h
          | arr ys => simp [safeChoicesShape, hc] at h
      | null =>
        exact ⟨none, choicesBranch_notTaken fs fun ys hy => by
          rw [hc] at hy; simp at hy⟩
      | bool b =>
        exact ⟨none, choicesBranch_notTaken fs fun ys hy => by
          rw [hc] at hy; simp at hy⟩
      | num q =>
        exact ⟨none, choicesBranch_notTaken fs fun ys hy => by
          rw [hc] at hy; simp at hy⟩
      | str s =>
        exact ⟨none, choicesBranch_notTaken fs fun ys hy => by
          rw [hc] at hy; simp at hy⟩
      | obj gs =>
        exact ⟨none, choicesBranch_notTaken fs fun ys hy => by
          rw [hc] at hy; simp at hy⟩
  obtain ⟨o, ho⟩ := hBranch
  cases o with
  | none => rw [extract_of_choicesBranch_none fs ho]; rfl
  | some v => rw [extract_of_choicesBranch_ok fs v ho]; rfl

/-- Witness for the amended C10: a message-without-text element is handled
without raising. -/
theorem extract_total_c10_witness :
    safeChoicesShape [("choices", .arr [.obj [("message", .obj [("content", .str "B")])]])]
      = true
    ∧ isOkResult (extractGeneratedText
        (.obj [("choices", .arr [.obj [("message", .obj [("content", .str "B")])]])])) =
      true :=
  ⟨rfl, extract_total_c10_amended
    [("choices", .arr [.obj [("message", .obj [("content", .str "B")])]])] rfl⟩

/-! ### Claims C2, C8 -/

/-- C2 (intended constructor logic): construction succeeds iff both the
endpoint URL and the API key resolve to a truthy (non-empty, present)
string after trying the explicit parameter first and then the environment
fallback — equivalently, it raises the configuration `ValueError` iff
either resolves empty or absent; `create_e2e_llm` behaves identically.
The check runs in the constructor, before any call.  (The shipped source
cannot reach this code: line 28 `def __init__(l` is a Python
`SyntaxError`, see `initE2ENetworksLLM`.) -/
theorem init_credentials_c2 (endpoint_url api_key : Option String)
    (model_name : String) (temperature max_tokens top_p : ℚ) (tmo : Int)
    (envEndpointUrl envApiKey : Option String) :
    ((∃ inst, initE2ENetworksLLM endpoint_url api_key model_name temperature
        max_tokens top_p tmo envEndpointUrl envApiKey = .ok inst) ↔
      (truthyStr (pyOrStr endpoint_url envEndpointUrl) = true ∧
       truthyStr (pyOrStr api_key envApiKey) = true))
    ∧ ((∃ inst, createE2ELLM endpoint_url api_key envEndpointUrl envApiKey = .ok inst) ↔
      (truthyStr (pyOrStr endpoint_url envEndpointUrl) = true ∧
       truthyStr (pyOrStr api_key envApiKey) = true)) := by
  cases h1 : truthyStr (pyOrStr endpoint_url envEndpointUrl) <;>
    cases h2 : truthyStr (pyOrStr api_key envApiKey) <;>
      simp [initE2ENetworksLLM, createE2ELLM, h1, h2]

/-- C8: batch generation produces one singleton `Generation` list per
prompt, in input order — the result has the same length as the prompt list
and its `i`-th entry is exactly the `_call` outcome of the `i`-th prompt,
so one prompt's failure (an error string) never aborts or alters the
others. -/
theorem generate_batch_c8 (env : String → ReqOutcome) (inst : E2EInst)
    (prompts : List String) (stop : Option (List String))
    (kwargs : List (String × Json)) :
    (pyGenerate env inst prompts stop kwargs).generations.length = prompts.length
    ∧ ∀ (i : ℕ) (p : String), prompts[i]? = some p →
        (pyGenerate env inst prompts stop kwargs).generations[i]? =
          some [⟨pyCall env inst p stop kwargs⟩] := by
  constructor
  · simp [pyGenerate]
  · intro i p hp
    simp [pyGenerate, List.getElem?_map, hp]

/-- Witness for C8: a batch of three where the second prompt times out —
the result still has three entries, in order, the second being the
`"timed out"` error string and the others real completions. -/
theorem generate_batch_c8_witness :
    (pyGenerate demoEnv demoInst ["A", "B", "C"] none []).generations.length = 3
    ∧ (pyGenerate demoEnv demoInst ["A", "B", "C"] none []).generations[1]? =
        some [⟨.str "Error: Request to E2E LLM timed out after 30 seconds"⟩]
    ∧ (pyGenerate demoEnv demoInst ["A", "B", "C"] none []).generations[0]? =
        some [⟨.str "done-A"⟩]
    ∧ (pyGenerate demoEnv demoInst ["A", "B", "C"] none []).generations[2]? =
        some [⟨.str "done-C"⟩] :=
  ⟨(generate_batch_c8 demoEnv demoInst ["A", "B", "C"] none []).1,
   ((generate_batch_c8 demoEnv demoInst ["A", "B", "C"] none []).2 1 "B" rfl).trans rfl,
   ((generate_batch_c8 demoEnv demoInst ["A", "B", "C"] none []).2 0 "A" rfl).trans rfl,
   ((generate_batch_c8 demoEnv demoInst ["A", "B", "C"] none []).2 2 "C" rfl).trans rfl⟩
